import Mathlib

/-!
# Verification of the Agro-Shop order/cart core

Shallow embedding of the Khuma77/DevOPS e-commerce demo:
the session cart (`src/app.py`), the web checkout flow (`src/app.py`),
the JSON API (`src/api/api_routes.py`) and the admin product routes
(`src/admin/admin_products.py`), over the sqlite schema declared in
`src/database.py`.

Conventions of the embedding:
* sqlite REAL money columns are modelled as `Rat` (exact arithmetic; no
  claim below depends on binary floating-point rounding),
* Python `int` quantities are `Int`,
* a sqlite table is a `List` of row structures, `INSERT` is append,
* a raised Python exception is `Except.error (ApiErr.fault _)`;
  uncommitted inserts on a connection abandoned by an exception are
  rolled back, so an erroring handler returns the original database,
* a JSON object is an association list `List (String × JVal)`; an
  absent key is an absent list entry, an absent body is `none`.
-/

set_option autoImplicit false

namespace AgroShop

/-- A row of the `products` table: `products(id, name, price)`. -/
structure Product where
  id : Nat
  name : String
  price : Rat
  deriving Repr, DecidableEq

/-- A row of the `orders` table:
`orders(id, customer_name, phone, address, total, created_at)`. -/
structure Order where
  id : Nat
  customer_name : String
  phone : String
  address : String
  total : Rat
  created_at : String
  deriving Repr, DecidableEq

/-- A row of the `order_items` table:
`order_items(id, order_id, product_name, quantity, price, subtotal)`. -/
structure OrderItem where
  id : Nat
  order_id : Nat
  product_name : String
  quantity : Int
  price : Rat
  subtotal : Rat
  deriving Repr, DecidableEq

/-- The persistent store (the three tables the claims touch), plus the
`AUTOINCREMENT` counters for the two tables the code inserts into. -/
structure DB where
  products : List Product
  orders : List Order
  order_items : List OrderItem
  next_order_id : Nat
  next_item_id : Nat
  deriving Repr, DecidableEq

/-- Models `SELECT * FROM products WHERE id=?` followed by `fetchone()`:
the first row whose id matches, if any. -/
def DB.findProduct (db : DB) (pid : Nat) : Option Product :=
  db.products.find? (fun p => p.id == pid)

theorem DB.findProduct_id {db : DB} {pid : Nat} {p : Product}
    (h : db.findProduct pid = some p) : p.id = pid := by
  have := List.find?_some h
  simpa using this

/-- Looking a key up in a list with no matching row yields `none`. -/
theorem DB.findProduct_eq_none {db : DB} {pid : Nat}
    (h : ∀ p ∈ db.products, p.id ≠ pid) : db.findProduct pid = none := by
  apply List.find?_eq_none.mpr
  intro p hp
  simpa using h p hp

/-! ## The session cart

`session["cart"]` is a Python dict from `str(product_id)` to quantity.
`str` is injective on the integer ids the routes receive, so keys are
modelled as `Nat`.  A dict is an insertion-ordered association list with
unique keys; assignment replaces the first (only) occurrence in place or
appends, `pop` removes it. -/

/-- The session cart: insertion-ordered key/value pairs. -/
def Cart := List (Nat × Int)
  deriving Repr, DecidableEq

instance : Membership (Nat × Int) Cart := inferInstanceAs (Membership _ (List _))

/-- Models `cart.get(str(pid))`: value of the first entry with this key. -/
def Cart.get : Cart → Nat → Option Int
  | [], _ => none
  | e :: rest, pid => if e.1 = pid then some e.2 else Cart.get rest pid

/-- Models `cart[str(pid)] = q`: replace the entry in place, or append it. -/
def Cart.set : Cart → Nat → Int → Cart
  | [], pid, q => [(pid, q)]
  | e :: rest, pid, q =>
    if e.1 = pid then (pid, q) :: rest else e :: Cart.set rest pid q

/-- Models `cart.pop(str(pid), None)`: drop the entry with this key, if any. -/
def Cart.pop (c : Cart) (pid : Nat) : Cart :=
  List.filter (fun e => !(e.1 == pid)) c

/-- Handler `add_to_cart` (`src/app.py`, route `/add/<int:product_id>`):
`cart[str(product_id)] = cart.get(str(product_id), 0) + 1`. -/
def add_to_cart (c : Cart) (product_id : Nat) : Cart :=
  c.set product_id ((c.get product_id).getD 0 + 1)

/-- Handler `update_qty` (`src/app.py`, route `/update/<int:pid>`):
remove the entry when the posted qty is ≤ 0, otherwise overwrite it. -/
def update_qty (c : Cart) (pid : Nat) (qty : Int) : Cart :=
  if qty ≤ 0 then c.pop pid else c.set pid qty

/-- The cart invariant of §3 of the spec: every quantity present is a
positive integer. -/
def CartInv (c : Cart) : Prop :=
  ∀ pid q, c.get pid = some q → 0 < q

theorem Cart.get_set_self (c : Cart) (pid : Nat) (q : Int) :
    (c.set pid q).get pid = some q := by
  induction c with
  | nil => simp [Cart.set, Cart.get]
  | cons e rest ih =>
    by_cases h : e.1 = pid
    · simp [Cart.set, h, Cart.get]
    · simp [Cart.set, h, Cart.get, ih]

theorem Cart.get_set_ne (c : Cart) (pid pid' : Nat) (q : Int) (h : pid' ≠ pid) :
    (c.set pid q).get pid' = c.get pid' := by
  have h1 : ¬ pid = pid' := fun hx => h hx.symm
  induction c with
  | nil => simp [Cart.set, Cart.get, h1]
  | cons e rest ih =>
    by_cases he : e.1 = pid
    · have h2 : ¬ e.1 = pid' := by rw [he]; exact h1
      simp [Cart.set, he, Cart.get, h1, h2]
    · simp [Cart.set, he, Cart.get, ih]

theorem Cart.get_pop_self (c : Cart) (pid : Nat) :
    (c.pop pid).get pid = none := by
  induction c with
  | nil => simp [Cart.pop, Cart.get]
  | cons e rest ih =>
    by_cases h : e.1 = pid
    · simpa [Cart.pop, List.filter_cons, h] using ih
    · simpa [Cart.pop, List.filter_cons, h, Cart.get] using ih

theorem Cart.get_pop_ne (c : Cart) (pid pid' : Nat) (h : pid' ≠ pid) :
    (c.pop pid).get pid' = c.get pid' := by
  have h3 : ¬ pid = pid' := fun hx => h hx.symm
  induction c with
  | nil => simp [Cart.pop, Cart.get]
  | cons e rest ih =>
    simp only [Cart.pop, List.filter_cons] at ih ⊢
    by_cases he : e.1 = pid
    · simp [he, Cart.get, h3, ih]
    · simp [he, Cart.get, ih]

theorem CartInv.set {c : Cart} (hc : CartInv c) {q : Int} (hq : 0 < q)
    (pid : Nat) : CartInv (c.set pid q) := by
  intro pid' q' h
  by_cases hp : pid' = pid
  · subst hp
    rw [Cart.get_set_self] at h
    injection h with h1
    exact h1 ▸ hq
  · rw [Cart.get_set_ne c pid pid' q hp] at h
    exact hc pid' q' h

theorem CartInv.pop {c : Cart} (hc : CartInv c) (pid : Nat) :
    CartInv (c.pop pid) := by
  intro pid' q' h
  by_cases hp : pid' = pid
  · subst hp
    rw [Cart.get_pop_self] at h
    exact absurd h (by simp)
  · rw [Cart.get_pop_ne c pid pid' hp] at h
    exact hc pid' q' h

theorem add_to_cart_get (c : Cart) (pid : Nat) :
    (add_to_cart c pid).get pid = some ((c.get pid).getD 0 + 1) :=
  Cart.get_set_self c pid _

theorem CartInv.add {c : Cart} (hc : CartInv c) (pid : Nat) :
    CartInv (add_to_cart c pid) := by
  unfold add_to_cart
  cases h : c.get pid with
  | none => exact hc.set (by simp [h]) pid
  | some q =>
    have hq : 0 < q := hc pid q h
    exact hc.set (by simp [h]; omega) pid

/-! ## Request handler outcomes

`ApiErr` is the error taxonomy of §7 of the spec as it shows up in the
handlers: `badRequest` is a returned `({"error": msg}, 400)`,
`notFound` a returned `({"error": msg}, 404)`, and `fault` an exception
raised inside the handler (surfacing as HTTP 500 for API routes wrapped
in `track_metrics`, and as an unhandled crash for web routes). -/
inductive ApiErr where
  | badRequest (msg : String)
  | notFound (msg : String)
  | fault (msg : String)
  deriving Repr, DecidableEq

/-! ## Order materialization: API flow

`create_order` (`src/api/api_routes.py`, `POST /api/v1/orders`).  The
request body is modelled as an optional record of optional fields: a
`none` field is a key absent from the JSON object.  Items are raw JSON
objects whose two expected keys may be absent. -/

/-- One element of the request's `items` array; either key may be
missing (`'product_id' not in item or 'quantity' not in item`). -/
structure RawItem where
  product_id : Option Nat
  quantity : Option Int
  deriving Repr, DecidableEq

/-- The JSON body of `POST /api/v1/orders`, with each of the four
required keys possibly absent. -/
structure OrderReq where
  customer_name : Option String
  phone : Option String
  address : Option String
  items : Option (List RawItem)
  deriving Repr, DecidableEq

/-- First loop of `create_order` ("Calculate total and validate
products"): per item, reject malformed items with 400, missing products
with 404 (naming the product id), and otherwise accumulate
`total += product['price'] * item['quantity']`. -/
def validateItems (db : DB) : List RawItem → Except ApiErr Rat
  | [] => .ok 0
  | item :: rest =>
    match item.product_id, item.quantity with
    | some pid, some q =>
      match db.findProduct pid with
      | some p =>
        (validateItems db rest).map (fun t => p.price * (q : Rat) + t)
      | none =>
        .error (.notFound ("Product " ++ toString pid ++ " not found"))
    | _, _ => .error (.badRequest "Each item must have product_id and quantity")
  termination_by its => its.length

/-- Second loop of `create_order` ("Create order items"): re-reads each
product and inserts one `order_items` row with the snapshotted name and
price and `subtotal = product['price'] * item['quantity']`.  A `None`
lookup here would raise (`product['name']` on `None`), modelled as a
string error that the caller wraps as a fault. -/
def buildItems (db : DB) (oid : Nat) : Nat → List RawItem → Except String (List OrderItem)
  | _, [] => .ok []
  | iid, item :: rest =>
    match item.product_id, item.quantity with
    | some pid, some q =>
      match db.findProduct pid with
      | some p =>
        (buildItems db oid (iid + 1) rest).map
          (fun l => { id := iid, order_id := oid, product_name := p.name,
                      quantity := q, price := p.price,
                      subtotal := p.price * (q : Rat) } :: l)
      | none => .error "TypeError: NoneType object is not subscriptable"
    | _, _ => .error "KeyError"

/-- Handler `create_order` (`src/api/api_routes.py`): the whole handler body.
`data = none` models an absent/null JSON body (falsy, so it takes the
same 400 branch as a body missing a required key).  All inserts are
committed by the single `conn.commit()` after the item loop, so an
exception before it leaves the database unchanged (sqlite rollback on
connection teardown); every error branch therefore returns `db`
unchanged.  On success returns the new order id and server-computed
total, as echoed in the 201 response body. -/
def create_order (db : DB) (data : Option OrderReq) (now : String) :
    Except ApiErr (Nat × Rat) × DB :=
  match data with
  | none =>
    (.error (.badRequest "Required fields: customer_name, phone, address, items"), db)
  | some req =>
    match req.customer_name, req.phone, req.address, req.items with
    | some cn, some ph, some ad, some its =>
      if its.isEmpty then
        (.error (.badRequest "Order must have at least one item"), db)
      else
        match validateItems db its with
        | .error e => (.error e, db)
        | .ok total =>
          let oid := db.next_order_id
          match buildItems db oid db.next_item_id its with
          | .error m => (.error (.fault m), db)
          | .ok rows =>
            (.ok (oid, total),
             { db with
                orders := db.orders ++
                  [{ id := oid, customer_name := cn, phone := ph, address := ad,
                     total := total, created_at := now }],
                order_items := db.order_items ++ rows,
                next_order_id := oid + 1,
                next_item_id := db.next_item_id + rows.length })
    | _, _, _, _ =>
      (.error (.badRequest "Required fields: customer_name, phone, address, items"), db)

/-! ## Order materialization: web checkout flow

`checkout` (`src/app.py`, `POST /checkout`).  The loop over
`cart.items()` computes `(product["name"], qty, product["price"],
subtotal)` tuples; a cart entry whose product was deleted makes
`product["price"]` raise on `None` — there is no guard. -/

/-- The per-entry loop of `checkout` (and, with the same body, of the
`/cart` view): resolve each cart entry against the catalog, computing
`subtotal = product["price"] * qty`.  An unresolvable entry raises. -/
def checkoutLines (db : DB) : List (Nat × Int) → Except String (List (String × Int × Rat × Rat))
  | [] => .ok []
  | (pid, q) :: rest =>
    match db.findProduct pid with
    | some p =>
      (checkoutLines db rest).map
        (fun l => (p.name, q, p.price, p.price * (q : Rat)) :: l)
    | none => .error "TypeError: NoneType object is not subscriptable"

/-- One `INSERT INTO order_items` of the checkout item loop, applied to
an id-numbered `(product_name, qty, price, subtotal)` tuple. -/
def webRow (oid : Nat) (li : Nat × String × Int × Rat × Rat) : OrderItem :=
  { id := li.1, order_id := oid, product_name := li.2.1,
    quantity := li.2.2.1, price := li.2.2.2.1, subtotal := li.2.2.2.2 }

/-- Handler `checkout`, POST branch (`src/app.py`): iterate the session cart
accumulating items and total, insert the `orders` row (committed),
insert one `order_items` row per tuple (committed), clear the cart, and
return the success page.  An exception in the loop happens before any
insert, so the error branch returns the original database and cart. -/
def checkout (db : DB) (cart : Cart) (name phone address now : String) :
    Except ApiErr String × DB × Cart :=
  match checkoutLines db cart with
  | .error m => (.error (.fault m), db, cart)
  | .ok lines =>
    let total := (lines.map (fun l => l.2.2.2)).sum
    let oid := db.next_order_id
    let rows := (List.enumFrom db.next_item_id lines).map (webRow oid)
    (.ok "Order placed successfully!",
     { db with
        orders := db.orders ++
          [{ id := oid, customer_name := name, phone := phone, address := address,
             total := total, created_at := now }],
        order_items := db.order_items ++ rows,
        next_order_id := oid + 1,
        next_item_id := db.next_item_id + rows.length },
     ([] : Cart))

/-! ## Cart view

`cart` (`src/app.py`, route `/cart`): the same unguarded join as the
checkout loop, rendering one line per cart entry with a live subtotal
and the live total. -/

/-- One rendered cart line: `{"product": product, "qty": qty,
"subtotal": subtotal}`. -/
structure CartLine where
  product : Product
  qty : Int
  subtotal : Rat
  deriving Repr, DecidableEq

/-- The loop body of the `/cart` view (identical to the checkout GET
branch): resolve each entry, `subtotal = product["price"] * qty`;
raises on a deleted product. -/
def viewLines (db : DB) : List (Nat × Int) → Except String (List CartLine)
  | [] => .ok []
  | (pid, q) :: rest =>
    match db.findProduct pid with
    | some p =>
      (viewLines db rest).map
        (fun l => ({ product := p, qty := q, subtotal := p.price * (q : Rat) } : CartLine) :: l)
    | none => .error "TypeError: NoneType object is not subscriptable"

/-- Handler `cart`, the cart view (`src/app.py`): returns the rendered lines and
`total`, the running sum of the subtotals; any unresolvable entry makes
the whole request raise. -/
def cart_view (db : DB) (c : Cart) : Except ApiErr (List CartLine × Rat) :=
  match viewLines db c with
  | .error m => .error (.fault m)
  | .ok lines => .ok (lines, (lines.map (fun l => l.subtotal)).sum)

/-! ## Catalog: update and delete

JSON values reaching `update_product` are strings or numbers.  Python
`float()` of a non-numeric value raises; numeric JSON strings (e.g.
`"12.5"`, which `float()` would parse) are outside this model and fall
into the raising case.  A numeric value landing in the dynamically
typed TEXT `name` column is modelled by its decimal rendering. -/
inductive JVal where
  | jstr (s : String)
  | jnum (q : Rat)
  deriving Repr, DecidableEq

/-- A JSON object body: association list of keys to values. -/
def Body := List (String × JVal)
  deriving Repr, DecidableEq

/-- Models `data.get(k, default)` on a JSON object. -/
def Body.getD (d : Body) (k : String) (v : JVal) : JVal :=
  ((List.find? (fun e => e.1 == k) d).map (fun e => e.2)).getD v

/-- Python `float(v)` for the values this model covers. -/
def pyFloat : JVal → Option Rat
  | .jnum q => some q
  | .jstr _ => none

/-- What a JVal stores into the TEXT `name` column. -/
def storedText : JVal → String
  | .jstr s => s
  | .jnum q => toString q

/-- Handler `update_product` (`src/api/api_routes.py`, `PUT
/api/v1/products/{id}`): reject a falsy body (`None` or `{}`) with 400
before touching the database; 404 when the id is absent; otherwise
update with `data.get('name', product['name'])` /
`data.get('price', product['price'])` and echo the result. -/
def update_product (db : DB) (product_id : Nat) (data : Option Body) :
    Except ApiErr (Nat × String × Rat) × DB :=
  match data with
  | none => (.error (.badRequest "JSON data required"), db)
  | some d =>
    if d.isEmpty then (.error (.badRequest "JSON data required"), db)
    else
      match db.findProduct product_id with
      | none => (.error (.notFound "Product not found"), db)
      | some p =>
        let name := d.getD "name" (.jstr p.name)
        let price := d.getD "price" (.jnum p.price)
        match pyFloat price with
        | none => (.error (.fault "could not convert value to float"), db)
        | some pr =>
          let upd := fun q => if q.id = product_id then
            { q with name := storedText name, price := pr } else q
          (.ok (product_id, storedText name, pr),
           { db with products := db.products.map upd })

/-- Handler `delete_product` (`src/api/api_routes.py`, `DELETE
/api/v1/products/{id}`): 404 when the id is absent, otherwise
`DELETE FROM products WHERE id=?` and a success message. -/
def api_delete_product (db : DB) (product_id : Nat) :
    Except ApiErr String × DB :=
  match db.findProduct product_id with
  | none => (.error (.notFound "Product not found"), db)
  | some _ =>
    (.ok "Product deleted successfully",
     { db with products := db.products.filter (fun p => !(p.id == product_id)) })

/-- Handler `delete_product` (`src/admin/admin_products.py`, route
`/admin/products/delete/<int:id>`): redirect to the login page when the
session admin flag is unset; otherwise run the DELETE unconditionally
(no existence check) and redirect to the product list. -/
def admin_delete_product (isAdmin : Bool) (db : DB) (id : Nat) :
    String × DB :=
  if !isAdmin then ("/admin/login", db)
  else
    ("/admin/products",
     { db with products := db.products.filter (fun p => !(p.id == id)) })

/-! ## The metrics wrapper

`track_metrics` (`src/api/api_routes.py`): wraps every API handler.
The wrapped handler either returns a Flask response (of any HTTP status
— 200, 201, 400, 404 all come back through the `try` branch) or raises.
The `try` branch increments the request counter with `status='200'`,
the `except` branch with `status='500'`, and the `finally` block always
records one latency observation. -/

/-- A Flask response as the wrapper sees it: status code plus body. -/
structure HttpResp where
  status : Nat
  body : String
  deriving Repr, DecidableEq

/-- The metrics side-channel: the sequence of
`api_requests_total.labels(method, endpoint, status).inc()` events and
the number of `api_request_duration.observe(...)` events. -/
structure MetricsState where
  counters : List (String × String × String)
  latencies : Nat
  deriving Repr, DecidableEq

/-- Decorator `track_metrics(endpoint)` applied to one call: the handler result
is `.ok resp` for a normal return and `.error msg` for a raised
exception (turned into a 500 response echoing the message). -/
def track_metrics (method endpoint : String) (handler : Except String HttpResp)
    (m : MetricsState) : HttpResp × MetricsState :=
  match handler with
  | .ok resp =>
    (resp,
     { counters := m.counters ++ [(method, endpoint, "200")],
       latencies := m.latencies + 1 })
  | .error e =>
    ({ status := 500, body := e },
     { counters := m.counters ++ [(method, endpoint, "500")],
       latencies := m.latencies + 1 })

/-! ## Sums and validity predicates used by the theorems -/

/-- Quantity times the product's unit price at the given database
state, for one API line (0 on a line the handler would reject). -/
def lineAmount (db : DB) (i : RawItem) : Rat :=
  match i.product_id, i.quantity with
  | some pid, some q =>
    match db.findProduct pid with
    | some p => p.price * (q : Rat)
    | none => 0
  | _, _ => 0

/-- Sum over all lines of quantity times the unit price at the given
database state. -/
def itemsSum (db : DB) (its : List RawItem) : Rat :=
  (its.map (lineAmount db)).sum

/-- Quantity times the live unit price for one cart entry. -/
def entryAmount (db : DB) (e : Nat × Int) : Rat :=
  match db.findProduct e.1 with
  | some p => p.price * (e.2 : Rat)
  | none => 0

/-- Sum over all cart entries of quantity times the live unit price. -/
def cartSum (db : DB) (c : Cart) : Rat :=
  (List.map (entryAmount db) c).sum

/-- An API line the handler accepts: both keys present and the product
resolvable in the current catalog. -/
def ItemOk (db : DB) (i : RawItem) : Prop :=
  ∃ pid q p, i.product_id = some pid ∧ i.quantity = some q ∧
    db.findProduct pid = some p

/-- On an all-valid item list the validation loop succeeds and returns
exactly the sum of quantity times current unit price. -/
theorem validateItems_ok {db : DB} {its : List RawItem}
    (h : ∀ i ∈ its, ItemOk db i) :
    validateItems db its = .ok (itemsSum db its) := by
  induction its with
  | nil => simp [validateItems, itemsSum]
  | cons i rest ih =>
    obtain ⟨pid, q, p, hpid, hq, hp⟩ := h i (List.mem_cons_self i rest)
    have hrest := ih (fun j hj => h j (List.mem_cons_of_mem i hj))
    simp [validateItems, hpid, hq, hp, hrest, itemsSum, lineAmount, Except.map]

/-- The elementwise relation between a request line and the
`order_items` row materialized for it: the row snapshots the name and
price of the product the line references, and its subtotal is that
snapshotted price times the line's quantity. -/
def RowMatches (db : DB) (oid : Nat) (i : RawItem) (r : OrderItem) : Prop :=
  r.order_id = oid ∧
  ∃ pid q p, i.product_id = some pid ∧ i.quantity = some q ∧
    db.findProduct pid = some p ∧
    r.product_name = p.name ∧ r.quantity = q ∧ r.price = p.price ∧
    r.subtotal = p.price * (q : Rat)

/-- On an all-valid item list the insertion loop succeeds and produces
one matching row per line. -/
theorem buildItems_ok {db : DB} {its : List RawItem}
    (h : ∀ i ∈ its, ItemOk db i) (oid : Nat) :
    ∀ iid, ∃ rows, buildItems db oid iid its = .ok rows ∧
      List.Forall₂ (RowMatches db oid) its rows := by
  induction its with
  | nil => intro iid; exact ⟨[], rfl, List.Forall₂.nil⟩
  | cons i rest ih =>
    intro iid
    obtain ⟨pid, q, p, hpid, hq, hp⟩ := h i (List.mem_cons_self i rest)
    obtain ⟨rows', hrows', hrel⟩ :=
      ih (fun j hj => h j (List.mem_cons_of_mem i hj)) (iid + 1)
    refine ⟨{ id := iid, order_id := oid, product_name := p.name, quantity := q,
              price := p.price, subtotal := p.price * (q : Rat) } :: rows', ?_, ?_⟩
    · simp [buildItems, hpid, hq, hp, hrows', Except.map]
    · exact List.Forall₂.cons ⟨rfl, pid, q, p, hpid, hq, hp, rfl, rfl, rfl, rfl⟩ hrel

/-- A structurally well-formed item list containing an unresolvable
product id makes the validation loop fail with the 404 naming the first
such id. -/
theorem validateItems_notFound {db : DB} {its : List RawItem}
    (hstruct : ∀ i ∈ its, i.product_id.isSome ∧ i.quantity.isSome)
    (hbad : ∃ i ∈ its, ∃ pid, i.product_id = some pid ∧ db.findProduct pid = none) :
    ∃ pid, (∃ i ∈ its, i.product_id = some pid) ∧ db.findProduct pid = none ∧
      validateItems db its =
        .error (.notFound ("Product " ++ toString pid ++ " not found")) := by
  induction its with
  | nil => obtain ⟨i, hi, _⟩ := hbad; exact absurd hi (List.not_mem_nil i)
  | cons i rest ih =>
    obtain ⟨hps, hqs⟩ := hstruct i (List.mem_cons_self i rest)
    obtain ⟨pid, hpid⟩ := Option.isSome_iff_exists.mp hps
    obtain ⟨q, hq⟩ := Option.isSome_iff_exists.mp hqs
    cases hp : db.findProduct pid with
    | none =>
      exact ⟨pid, ⟨i, List.mem_cons_self i rest, hpid⟩, hp,
        by simp [validateItems, hpid, hq, hp]⟩
    | some p =>
      have hbad' : ∃ j ∈ rest, ∃ pid', j.product_id = some pid' ∧
          db.findProduct pid' = none := by
        obtain ⟨j, hj, pid', hpid', hnone⟩ := hbad
        rcases List.mem_cons.mp hj with hj1 | hj2
        · subst hj1
          rw [hpid] at hpid'
          injection hpid' with hpe
          subst hpe
          rw [hp] at hnone
          exact absurd hnone (by simp)
        · exact ⟨j, hj2, pid', hpid', hnone⟩
      obtain ⟨pid', hmem, hnone, herr⟩ :=
        ih (fun j hj => hstruct j (List.mem_cons_of_mem i hj)) hbad'
      obtain ⟨j, hj, hjpid⟩ := hmem
      exact ⟨pid', ⟨j, List.mem_cons_of_mem i hj, hjpid⟩, hnone,
        by simp [validateItems, hpid, hq, hp, herr, Except.map]⟩

/-- A cart containing an entry whose product id no longer resolves
makes the checkout loop raise. -/
theorem checkoutLines_error {db : DB} {c : List (Nat × Int)}
    (hbad : ∃ e ∈ c, db.findProduct e.1 = none) :
    ∃ m, checkoutLines db c = .error m := by
  induction c with
  | nil => obtain ⟨e, he, _⟩ := hbad; exact absurd he (List.not_mem_nil e)
  | cons e rest ih =>
    cases hp : db.findProduct e.1 with
    | none =>
      exact ⟨"TypeError: NoneType object is not subscriptable",
        by simp [checkoutLines, hp]⟩
    | some p =>
      have hbad' : ∃ e' ∈ rest, db.findProduct e'.1 = none := by
        obtain ⟨e', he', hnone⟩ := hbad
        rcases List.mem_cons.mp he' with he1 | he2
        · subst he1
          rw [hp] at hnone
          exact absurd hnone (by simp)
        · exact ⟨e', he2, hnone⟩
      obtain ⟨m, hm⟩ := ih hbad'
      exact ⟨m, by cases e; simp [checkoutLines, hp, hm, Except.map]⟩

/-- Analog of `checkoutLines_error` for the cart-view loop. -/
theorem viewLines_error {db : DB} {c : List (Nat × Int)}
    (hbad : ∃ e ∈ c, db.findProduct e.1 = none) :
    ∃ m, viewLines db c = .error m := by
  induction c with
  | nil => obtain ⟨e, he, _⟩ := hbad; exact absurd he (List.not_mem_nil e)
  | cons e rest ih =>
    cases hp : db.findProduct e.1 with
    | none =>
      exact ⟨"TypeError: NoneType object is not subscriptable",
        by simp [viewLines, hp]⟩
    | some p =>
      have hbad' : ∃ e' ∈ rest, db.findProduct e'.1 = none := by
        obtain ⟨e', he', hnone⟩ := hbad
        rcases List.mem_cons.mp he' with he1 | he2
        · subst he1
          rw [hp] at hnone
          exact absurd hnone (by simp)
        · exact ⟨e', he2, hnone⟩
      obtain ⟨m, hm⟩ := ih hbad'
      exact ⟨m, by cases e; simp [viewLines, hp, hm, Except.map]⟩

/-- The tuple the checkout loop builds for a resolvable cart entry. -/
def LineMatches (db : DB) (e : Nat × Int) (l : String × Int × Rat × Rat) : Prop :=
  ∃ p, db.findProduct e.1 = some p ∧
    l = (p.name, e.2, p.price, p.price * (e.2 : Rat))

/-- On an all-resolvable cart the checkout loop succeeds, producing one
tuple per entry. -/
theorem checkoutLines_ok {db : DB} {c : List (Nat × Int)}
    (h : ∀ e ∈ c, ∃ p, db.findProduct e.1 = some p) :
    ∃ lines, checkoutLines db c = .ok lines ∧
      List.Forall₂ (LineMatches db) c lines := by
  induction c with
  | nil => exact ⟨[], rfl, List.Forall₂.nil⟩
  | cons e rest ih =>
    obtain ⟨p, hp⟩ := h e (List.mem_cons_self e rest)
    obtain ⟨lines', hlines', hrel⟩ := ih (fun e' he' => h e' (List.mem_cons_of_mem e he'))
    refine ⟨(p.name, e.2, p.price, p.price * (e.2 : Rat)) :: lines', ?_, ?_⟩
    · cases e
      simp [checkoutLines, hp, hlines', Except.map]
    · exact List.Forall₂.cons ⟨p, hp, rfl⟩ hrel

/-- The running total of the checkout loop is the sum of quantity times
live unit price over the cart. -/
theorem checkoutLines_sum {db : DB} {c : List (Nat × Int)}
    {lines : List (String × Int × Rat × Rat)}
    (hrel : List.Forall₂ (LineMatches db) c lines) :
    (lines.map (fun l => l.2.2.2)).sum = cartSum db c := by
  induction hrel with
  | nil => simp [cartSum]
  | cons hhead _ ih =>
    obtain ⟨p, hp, hl⟩ := hhead
    subst hl
    simp [cartSum, entryAmount, hp] at ih ⊢
    rw [ih]

/-- The elementwise relation between a cart entry and the `order_items`
row the web checkout materializes for it. -/
def WebRowMatches (db : DB) (oid : Nat) (e : Nat × Int) (r : OrderItem) : Prop :=
  r.order_id = oid ∧
  ∃ p, db.findProduct e.1 = some p ∧
    r.product_name = p.name ∧ r.quantity = e.2 ∧ r.price = p.price ∧
    r.subtotal = p.price * (e.2 : Rat)

/-- Numbering the checkout tuples and turning them into rows preserves
the per-entry correspondence. -/
theorem webRows_match {db : DB} {oid : Nat} {c : List (Nat × Int)}
    {lines : List (String × Int × Rat × Rat)}
    (hrel : List.Forall₂ (LineMatches db) c lines) :
    ∀ iid, List.Forall₂ (WebRowMatches db oid) c
      ((List.enumFrom iid lines).map (webRow oid)) := by
  induction hrel with
  | nil => intro iid; exact List.Forall₂.nil
  | cons hhead _ ih =>
    intro iid
    obtain ⟨p, hp, hl⟩ := hhead
    subst hl
    exact List.Forall₂.cons ⟨rfl, p, hp, rfl, rfl, rfl, rfl⟩ (ih (iid + 1))

/-- The line the cart view renders for a resolvable cart entry. -/
def ViewMatches (db : DB) (e : Nat × Int) (l : CartLine) : Prop :=
  ∃ p, db.findProduct e.1 = some p ∧
    l = { product := p, qty := e.2, subtotal := p.price * (e.2 : Rat) }

/-- On an all-resolvable cart the view loop succeeds, producing one
line per entry. -/
theorem viewLines_ok {db : DB} {c : List (Nat × Int)}
    (h : ∀ e ∈ c, ∃ p, db.findProduct e.1 = some p) :
    ∃ lines, viewLines db c = .ok lines ∧
      List.Forall₂ (ViewMatches db) c lines := by
  induction c with
  | nil => exact ⟨[], rfl, List.Forall₂.nil⟩
  | cons e rest ih =>
    obtain ⟨p, hp⟩ := h e (List.mem_cons_self e rest)
    obtain ⟨lines', hlines', hrel⟩ := ih (fun e' he' => h e' (List.mem_cons_of_mem e he'))
    refine ⟨{ product := p, qty := e.2, subtotal := p.price * (e.2 : Rat) } :: lines', ?_, ?_⟩
    · cases e
      simp [viewLines, hp, hlines', Except.map]
    · exact List.Forall₂.cons ⟨p, hp, rfl⟩ hrel

/-- The total the cart view renders is the sum of quantity times live
unit price over the cart. -/
theorem viewLines_sum {db : DB} {c : List (Nat × Int)} {lines : List CartLine}
    (hrel : List.Forall₂ (ViewMatches db) c lines) :
    (lines.map (fun l => l.subtotal)).sum = cartSum db c := by
  induction hrel with
  | nil => simp [cartSum]
  | cons hhead _ ih =>
    obtain ⟨p, hp, hl⟩ := hhead
    subst hl
    simp [cartSum, entryAmount, hp] at ih ⊢
    rw [ih]

/-- Every line of a successful cart view comes from some cart entry,
via a successful product lookup. -/
theorem viewLines_mem {db : DB} {c : List (Nat × Int)} {lines : List CartLine}
    (h : viewLines db c = .ok lines) :
    ∀ l ∈ lines, ∃ e ∈ c, db.findProduct e.1 = some l.product := by
  induction c generalizing lines with
  | nil =>
    intro l hl
    simp [viewLines] at h
    subst h
    exact absurd hl (List.not_mem_nil l)
  | cons e rest ih =>
    intro l hl
    obtain ⟨pid, q⟩ := e
    cases hp : db.findProduct pid with
    | none => rw [viewLines, hp] at h; exact absurd h (by simp)
    | some p =>
      rw [viewLines, hp] at h
      cases hrest : viewLines db rest with
      | error m => rw [hrest] at h; exact absurd h (by simp [Except.map])
      | ok lines' =>
        rw [hrest] at h
        simp [Except.map] at h
        subst h
        rcases List.mem_cons.mp hl with hl1 | hl2
        · subst hl1
          exact ⟨(pid, q), List.mem_cons_self _ _, hp⟩
        · obtain ⟨e', he', hpe'⟩ := ih hrest l hl2
          exact ⟨e', List.mem_cons_of_mem _ he', hpe'⟩

/-- Right-to-left membership transfer along an elementwise relation. -/
theorem mem_of_forall₂ {α β : Type} {R : α → β → Prop} :
    ∀ {as : List α} {bs : List β}, List.Forall₂ R as bs →
      ∀ b ∈ bs, ∃ a ∈ as, R a b := by
  intro as bs h
  induction h with
  | nil => intro b hb; exact absurd hb (List.not_mem_nil b)
  | cons hhead _ ih =>
    intro b hb
    rcases List.mem_cons.mp hb with hb1 | hb2
    · subst hb1; exact ⟨_, List.mem_cons_self _ _, hhead⟩
    · obtain ⟨a, ha, hr⟩ := ih b hb2
      exact ⟨a, List.mem_cons_of_mem _ ha, hr⟩

/-- A one-product store mirroring the seed row `('Sabzi', 12000)` of
`src/database.py`, used to instantiate the theorems below. -/
def sampleDB : DB :=
  { products := [{ id := 1, name := "Sabzi", price := 12000 }],
    orders := [], order_items := [],
    next_order_id := 1, next_item_id := 1 }

/-! ## The claims -/

/-- C4: for every session cart and product id, `update_qty` with
qty ≤ 0 removes that product's entry (so a subsequent cart view shows
no line for it), and with qty > 0 sets the entry to exactly qty, not
additively; both `update_qty` and `add_to_cart` preserve the invariant
that every quantity present in the cart is a positive integer. -/
theorem C4_setQuantity_semantics :
    ∀ (c : Cart) (pid : Nat) (qty : Int), CartInv c →
      (qty ≤ 0 → (update_qty c pid qty).get pid = none ∧
        (∀ (db : DB) (lines : List CartLine) (t : Rat),
          cart_view db (update_qty c pid qty) = .ok (lines, t) →
          ∀ l ∈ lines, l.product.id ≠ pid)) ∧
      (0 < qty → (update_qty c pid qty).get pid = some qty) ∧
      CartInv (update_qty c pid qty) ∧
      CartInv (add_to_cart c pid) := by
  intro c pid qty hinv
  refine ⟨?_, ?_, ?_, hinv.add pid⟩
  · intro hq
    constructor
    · simp [update_qty, hq, Cart.get_pop_self]
    · intro db lines t hview l hl
      rw [update_qty, if_pos hq] at hview
      cases hv : viewLines db (c.pop pid) with
      | error m => rw [cart_view, hv] at hview; exact absurd hview (by simp)
      | ok lines' =>
        rw [cart_view, hv] at hview
        simp at hview
        obtain ⟨hleq, -⟩ := hview
        subst hleq
        obtain ⟨e, he, hpe⟩ := viewLines_mem hv l hl
        have hid : l.product.id = e.1 := DB.findProduct_id hpe
        have hne : e.1 ≠ pid := by
          have := (List.mem_filter.mp he).2
          simpa using this
        rw [hid]
        exact hne
  · intro hq
    rw [update_qty, if_neg (by omega)]
    exact Cart.get_set_self c pid qty
  · rw [update_qty]
    by_cases hq : qty ≤ 0
    · rw [if_pos hq]; exact hinv.pop pid
    · rw [if_neg hq]; exact hinv.set (by omega) pid

/-- C4 witness: concrete instantiation of `C4_setQuantity_semantics` on
the cart holding quantity 2 of product 5. -/
theorem C4_witness :
    (update_qty [(5, 2)] 5 0).get 5 = none ∧
    (update_qty [(5, 2)] 5 7).get 5 = some 7 ∧
    CartInv (add_to_cart [(5, 2)] 5) := by
  have hinv : CartInv [(5, 2)] := by
    intro pid q h
    by_cases hp : (5 : Nat) = pid
    · rw [Cart.get, if_pos hp] at h
      injection h with h1
      omega
    · rw [Cart.get, if_neg hp] at h
      exact absurd h (by rw [Cart.get]; simp)
  obtain ⟨h1, -, -, h4⟩ := C4_setQuantity_semantics [(5, 2)] 5 0 hinv
  obtain ⟨-, h2, -, -⟩ := C4_setQuantity_semantics [(5, 2)] 5 7 hinv
  exact ⟨(h1 (by decide)).1, h2 (by decide), h4⟩

/-- C5: starting from a cart with no entry for a product, N repetitions
of `add_to_cart` yield quantity exactly N, and each single add sets the
quantity to the previous value (default 0) plus 1. -/
theorem C5_repeated_add :
    ∀ (c : Cart) (pid : Nat),
      (add_to_cart c pid).get pid = some ((c.get pid).getD 0 + 1) ∧
      (c.get pid = none → ∀ n : Nat, 1 ≤ n →
        ((fun cc => add_to_cart cc pid)^[n] c).get pid = some (n : Int)) := by
  intro c pid
  refine ⟨add_to_cart_get c pid, ?_⟩
  intro h0 n hn
  induction n with
  | zero => omega
  | succ n ih =>
    rcases Nat.eq_zero_or_pos n with hz | hpos
    · subst hz
      rw [Function.iterate_one]
      rw [add_to_cart_get c pid, h0]
      simp
    · have hprev := ih hpos
      rw [Function.iterate_succ_apply']
      rw [add_to_cart_get, hprev]
      simp

/-- C5 witness: concrete instantiation of `C5_repeated_add`: three adds
of product 3 to the empty cart yield quantity 3. -/
theorem C5_witness :
    ((fun cc => add_to_cart cc 3)^[3] ([] : Cart)).get 3 = some 3 :=
  (C5_repeated_add [] 3).2 rfl 3 (by decide)

/-- C9: deleting a product, through either the API route or the admin
route, changes neither the `orders` table nor the `order_items` table:
every denormalized snapshot row survives untouched. -/
theorem C9_delete_preserves_history :
    ∀ (db : DB) (pid : Nat) (b : Bool),
      (api_delete_product db pid).2.orders = db.orders ∧
      (api_delete_product db pid).2.order_items = db.order_items ∧
      (admin_delete_product b db pid).2.orders = db.orders ∧
      (admin_delete_product b db pid).2.order_items = db.order_items := by
  intro db pid b
  refine ⟨?_, ?_, ?_, ?_⟩
  · cases h : db.findProduct pid <;> simp [api_delete_product, h]
  · cases h : db.findProduct pid <;> simp [api_delete_product, h]
  · cases b <;> simp [admin_delete_product]
  · cases b <;> simp [admin_delete_product]

/-- C10: a PUT of an existing product with an absent JSON body or the
empty JSON object is rejected with 400 and the database is returned
unchanged — it is not a 200 no-op partial update. -/
theorem C10_update_requires_body :
    ∀ (db : DB) (pid : Nat) (p : Product), db.findProduct pid = some p →
      update_product db pid none =
        (.error (.badRequest "JSON data required"), db) ∧
      update_product db pid (some []) =
        (.error (.badRequest "JSON data required"), db) := by
  intro db pid p _
  exact ⟨rfl, rfl⟩

/-- C10 witness: concrete instantiation of `C10_update_requires_body`
on the sample store's product 1. -/
theorem C10_witness :
    update_product sampleDB 1 none =
      (.error (.badRequest "JSON data required"), sampleDB) ∧
    update_product sampleDB 1 (some []) =
      (.error (.badRequest "JSON data required"), sampleDB) :=
  C10_update_requires_body sampleDB 1
    { id := 1, name := "Sabzi", price := 12000 } rfl

/-- C7 counterexample: deleting the absent product id 42 through the
API route is not a silent no-op — it fails with a 404 error body. -/
theorem C7_counterexample :
    api_delete_product sampleDB 42 =
      (.error (.notFound "Product not found"), sampleDB) := rfl

/-- C7 (amended): for a product id absent from the catalog, the admin
delete route is a silent no-op (it redirects to the product list and
leaves the store unchanged), while the API delete route fails with
NotFound and also leaves the store unchanged. -/
theorem C7_delete_absent :
    ∀ (db : DB) (pid : Nat), db.findProduct pid = none →
      admin_delete_product true db pid = ("/admin/products", db) ∧
      api_delete_product db pid =
        (.error (.notFound "Product not found"), db) := by
  intro db pid h
  constructor
  · have hall := List.find?_eq_none.mp h
    have hfix : db.products.filter (fun p => !(p.id == pid)) = db.products := by
      apply List.filter_eq_self.mpr
      intro p hp
      simpa using hall p hp
    rw [admin_delete_product]
    simp [hfix]
  · rw [api_delete_product, h]

/-- C7 witness: concrete instantiation of `C7_delete_absent` at the
absent product id 42 of the sample store. -/
theorem C7_witness :
    admin_delete_product true sampleDB 42 = ("/admin/products", sampleDB) ∧
    api_delete_product sampleDB 42 =
      (.error (.notFound "Product not found"), sampleDB) :=
  C7_delete_absent sampleDB 42 rfl

/-- C8 counterexample: a call whose handler returns a 404 response is
counted under the status label "200", not its actual outcome status, so
the counter is not labeled with the call's outcome status. -/
theorem C8_counterexample :
    track_metrics "GET" "/products/<id>"
        (.ok { status := 404, body := "Product not found" })
        { counters := [], latencies := 0 } =
      ({ status := 404, body := "Product not found" },
       { counters := [("GET", "/products/<id>", "200")], latencies := 1 }) := rfl

/-- C8 (amended): every API call, whatever its outcome, appends exactly
one request-count increment and exactly one latency observation; the
increment carries the call's method and route, but its status label is
"200" for any handler that returns (including 400/404 responses) and
"500" only for a raised fault — it does not reflect the response's
actual status. -/
theorem C8_metrics_exactly_once :
    ∀ (method endpoint : String) (handler : Except String HttpResp)
      (m : MetricsState),
      (track_metrics method endpoint handler m).2.counters =
        m.counters ++
          [(method, endpoint,
            match handler with | .ok _ => "200" | .error _ => "500")] ∧
      (track_metrics method endpoint handler m).2.latencies =
        m.latencies + 1 := by
  intro method endpoint handler m
  cases handler <;> exact ⟨rfl, rfl⟩

/-- C1: for every order created from a valid non-empty line list —
through the API `POST /api/v1/orders` or the web checkout — the
persisted order's total equals the sum over all lines of quantity times
the product's unit price at materialization time, and each persisted
`order_items` row's subtotal equals its quantity times that same
snapshotted unit price. -/
theorem C1_materializer_totals :
    (∀ (db : DB) (cn ph ad now : String) (its : List RawItem),
      its ≠ [] →
      (∀ i ∈ its, ItemOk db i) →
      ∃ rows, create_order db
          (some { customer_name := some cn, phone := some ph,
                  address := some ad, items := some its }) now =
          (.ok (db.next_order_id, itemsSum db its),
           { db with
              orders := db.orders ++
                [{ id := db.next_order_id, customer_name := cn, phone := ph,
                   address := ad, total := itemsSum db its, created_at := now }],
              order_items := db.order_items ++ rows,
              next_order_id := db.next_order_id + 1,
              next_item_id := db.next_item_id + rows.length }) ∧
        List.Forall₂ (RowMatches db db.next_order_id) its rows) ∧
    (∀ (db : DB) (c : Cart) (name phone address now : String),
      (∀ e ∈ c, ∃ p, db.findProduct e.1 = some p) →
      ∃ rows, checkout db c name phone address now =
          (.ok "Order placed successfully!",
           { db with
              orders := db.orders ++
                [{ id := db.next_order_id, customer_name := name, phone := phone,
                   address := address, total := cartSum db c, created_at := now }],
              order_items := db.order_items ++ rows,
              next_order_id := db.next_order_id + 1,
              next_item_id := db.next_item_id + rows.length },
           ([] : Cart)) ∧
        List.Forall₂ (WebRowMatches db db.next_order_id) c rows) := by
  constructor
  · intro db cn ph ad now its hne hok
    obtain ⟨rows, hbuild, hrel⟩ := buildItems_ok hok db.next_order_id db.next_item_id
    have hval := validateItems_ok hok
    have hempty : its.isEmpty = false := by
      cases its with
      | nil => exact absurd rfl hne
      | cons _ _ => rfl
    exact ⟨rows, by simp [create_order, hempty, hval, hbuild], hrel⟩
  · intro db c name phone address now hok
    obtain ⟨lines, hlines, hrel⟩ := checkoutLines_ok hok
    have hsum := checkoutLines_sum hrel
    refine ⟨(List.enumFrom db.next_item_id lines).map (webRow db.next_order_id),
      ?_, webRows_match hrel db.next_item_id⟩
    simp [checkout, hlines, hsum]

/-- C1 witness: concrete instantiation of `C1_materializer_totals` on
the sample store, ordering two units of product 1 (the §8 scenario:
price 12000, quantity 2) through both flows. -/
theorem C1_witness :
    (∃ rows, create_order sampleDB
        (some { customer_name := some "Ali", phone := some "+998901234567",
                address := some "Tashkent",
                items := some [{ product_id := some 1, quantity := some 2 }] }) "t" =
        (.ok (sampleDB.next_order_id,
              itemsSum sampleDB [{ product_id := some 1, quantity := some 2 }]),
         { sampleDB with
            orders := sampleDB.orders ++
              [{ id := sampleDB.next_order_id, customer_name := "Ali",
                 phone := "+998901234567", address := "Tashkent",
                 total := itemsSum sampleDB [{ product_id := some 1, quantity := some 2 }],
                 created_at := "t" }],
            order_items := sampleDB.order_items ++ rows,
            next_order_id := sampleDB.next_order_id + 1,
            next_item_id := sampleDB.next_item_id + rows.length }) ∧
      List.Forall₂ (RowMatches sampleDB sampleDB.next_order_id)
        [{ product_id := some 1, quantity := some 2 }] rows) ∧
    (∃ rows, checkout sampleDB [(1, 2)] "Ali" "+998901234567" "Tashkent" "t" =
        (.ok "Order placed successfully!",
         { sampleDB with
            orders := sampleDB.orders ++
              [{ id := sampleDB.next_order_id, customer_name := "Ali",
                 phone := "+998901234567", address := "Tashkent",
                 total := cartSum sampleDB [(1, 2)], created_at := "t" }],
            order_items := sampleDB.order_items ++ rows,
            next_order_id := sampleDB.next_order_id + 1,
            next_item_id := sampleDB.next_item_id + rows.length },
         ([] : Cart)) ∧
      List.Forall₂ (WebRowMatches sampleDB sampleDB.next_order_id) [(1, 2)] rows) := by
  constructor
  · exact C1_materializer_totals.1 sampleDB "Ali" "+998901234567" "Tashkent" "t"
      [{ product_id := some 1, quantity := some 2 }]
      (by simp)
      (by
        intro i hi
        cases hi with
        | head => exact ⟨1, 2, { id := 1, name := "Sabzi", price := 12000 }, rfl, rfl, rfl⟩
        | tail _ h => cases h)
  · exact C1_materializer_totals.2 sampleDB [(1, 2)] "Ali" "+998901234567" "Tashkent" "t"
      (by
        intro e he
        cases he with
        | head => exact ⟨{ id := 1, name := "Sabzi", price := 12000 }, rfl⟩
        | tail _ h => cases h)

/-- C2 counterexample: a web checkout whose cart references the absent
product id 999 does not fail with NotFound — it crashes with an
unhandled fault (the claim requires NotFound for every order-creation
flow, web checkout included). -/
theorem C2_counterexample :
    checkout sampleDB [(999, 1)] "Ali" "+998901234567" "Tashkent" "t" =
      (.error (.fault "TypeError: NoneType object is not subscriptable"),
       sampleDB, [(999, 1)]) := rfl

/-- C2 (amended): an API order-creation request with well-formed items
one of which references a nonexistent product id fails with NotFound
naming an offending id and persists nothing; the web checkout in the
same situation also persists nothing but fails with an unhandled fault,
not NotFound. -/
theorem C2_missing_product :
    (∀ (db : DB) (cn ph ad now : String) (its : List RawItem),
      (∀ i ∈ its, i.product_id.isSome ∧ i.quantity.isSome) →
      (∃ i ∈ its, ∃ pid, i.product_id = some pid ∧ db.findProduct pid = none) →
      ∃ pid, (∃ i ∈ its, i.product_id = some pid) ∧ db.findProduct pid = none ∧
        create_order db
          (some { customer_name := some cn, phone := some ph,
                  address := some ad, items := some its }) now =
          (.error (.notFound ("Product " ++ toString pid ++ " not found")), db)) ∧
    (∀ (db : DB) (c : Cart) (name phone address now : String),
      (∃ e ∈ c, db.findProduct e.1 = none) →
      ∃ m, checkout db c name phone address now =
        (.error (.fault m), db, c)) := by
  constructor
  · intro db cn ph ad now its hstruct hbad
    obtain ⟨pid, hmem, hnone, herr⟩ := validateItems_notFound hstruct hbad
    have hne : its ≠ [] := by
      obtain ⟨i, hi, -⟩ := hmem
      intro hnil
      rw [hnil] at hi
      exact absurd hi (List.not_mem_nil i)
    have hempty : its.isEmpty = false := by
      cases its with
      | nil => exact absurd rfl hne
      | cons _ _ => rfl
    exact ⟨pid, hmem, hnone, by simp [create_order, hempty, herr]⟩
  · intro db c name phone address now hbad
    obtain ⟨m, hm⟩ := checkoutLines_error hbad
    exact ⟨m, by simp [checkout, hm]⟩

/-- C2 witness: concrete instantiation of `C2_missing_product`: an API
request with one valid line then one referencing the absent id 999, and
a web cart referencing 999. -/
theorem C2_witness :
    (∃ pid,
      (∃ i ∈ ([{ product_id := some 1, quantity := some 1 },
               { product_id := some 999, quantity := some 1 }] : List RawItem),
         i.product_id = some pid) ∧
      sampleDB.findProduct pid = none ∧
      create_order sampleDB
        (some { customer_name := some "Ali", phone := some "+998901234567",
                address := some "Tashkent",
                items := some [{ product_id := some 1, quantity := some 1 },
                               { product_id := some 999, quantity := some 1 }] }) "t" =
        (.error (.notFound ("Product " ++ toString pid ++ " not found")),
         sampleDB)) ∧
    (∃ m, checkout sampleDB [(999, 1)] "A" "B" "C" "t" =
      (.error (.fault m), sampleDB, [(999, 1)])) := by
  constructor
  · exact C2_missing_product.1 sampleDB "Ali" "+998901234567" "Tashkent" "t"
      [{ product_id := some 1, quantity := some 1 },
       { product_id := some 999, quantity := some 1 }]
      (by decide)
      ⟨{ product_id := some 999, quantity := some 1 },
       List.Mem.tail _ (List.Mem.head _), 999, rfl, rfl⟩
  · exact C2_missing_product.2 sampleDB [(999, 1)] "A" "B" "C" "t"
      ⟨(999, 1), List.Mem.head _, rfl⟩

/-- C3 counterexample: a web checkout with an empty cart does not fail
with ValidationError — it succeeds and persists an order row with
total 0 and no line items. -/
theorem C3_counterexample :
    checkout sampleDB [] "A" "B" "C" "t" =
      (.ok "Order placed successfully!",
       { products := [{ id := 1, name := "Sabzi", price := 12000 }],
         orders := [{ id := 1, customer_name := "A", phone := "B",
                      address := "C", total := 0, created_at := "t" }],
         order_items := [],
         next_order_id := 2, next_item_id := 1 },
       ([] : Cart)) := rfl

/-- C3 (amended): an API order-creation request with an empty items
list fails with a 400 ValidationError and persists nothing; the web
checkout performs no such validation: with an empty cart it succeeds
and persists an order row with total 0 and no line items. -/
theorem C3_empty_items :
    (∀ (db : DB) (cn ph ad now : String),
      create_order db
        (some { customer_name := some cn, phone := some ph,
                address := some ad, items := some [] }) now =
        (.error (.badRequest "Order must have at least one item"), db)) ∧
    (∀ (db : DB) (name phone address now : String),
      checkout db [] name phone address now =
        (.ok "Order placed successfully!",
         { db with
            orders := db.orders ++
              [{ id := db.next_order_id, customer_name := name, phone := phone,
                 address := address, total := 0, created_at := now }],
            next_order_id := db.next_order_id + 1 },
         ([] : Cart))) := by
  constructor
  · intro db cn ph ad now
    rfl
  · intro db name phone address now
    simp [checkout, checkoutLines]

/-- C6 counterexample: the cart view on a cart whose only entry
references the absent product id 7 does not skip the line — the whole
view crashes with an unhandled fault. -/
theorem C6_counterexample :
    cart_view sampleDB [(7, 2)] =
      .error (.fault "TypeError: NoneType object is not subscriptable") := rfl

/-- C6 (amended): when every cart entry resolves against the catalog,
the cart view returns one line per entry with its live subtotal
(quantity times current price) and the live total; but when any entry
references a product absent from the catalog, the view raises an
unhandled fault instead of skipping that line. -/
theorem C6_cart_view_behavior :
    ∀ (db : DB) (c : Cart),
      ((∀ e ∈ c, ∃ p, db.findProduct e.1 = some p) →
        ∃ lines, cart_view db c = .ok (lines, cartSum db c) ∧
          List.Forall₂ (ViewMatches db) c lines ∧
          ∀ l ∈ lines, l.subtotal = l.product.price * (l.qty : Rat)) ∧
      ((∃ e ∈ c, db.findProduct e.1 = none) →
        ∃ m, cart_view db c = .error (.fault m)) := by
  intro db c
  constructor
  · intro hok
    obtain ⟨lines, hv, hrel⟩ := viewLines_ok hok
    have hsum := viewLines_sum hrel
    refine ⟨lines, by simp [cart_view, hv, hsum], hrel, ?_⟩
    intro l hl
    obtain ⟨e, -, p, -, hleq⟩ := mem_of_forall₂ hrel l hl
    subst hleq
    rfl
  · intro hbad
    obtain ⟨m, hm⟩ := viewLines_error hbad
    exact ⟨m, by simp [cart_view, hm]⟩

/-- C6 witness: concrete instantiation of `C6_cart_view_behavior`: the
sample store renders the cart holding three units of product 1, and
crashes on the cart referencing the absent id 7. -/
theorem C6_witness :
    (∃ lines, cart_view sampleDB [(1, 3)] =
        .ok (lines, cartSum sampleDB [(1, 3)]) ∧
      List.Forall₂ (ViewMatches sampleDB) [(1, 3)] lines ∧
      ∀ l ∈ lines, l.subtotal = l.product.price * (l.qty : Rat)) ∧
    (∃ m, cart_view sampleDB [(7, 2)] = .error (.fault m)) := by
  constructor
  · exact (C6_cart_view_behavior sampleDB [(1, 3)]).1
      (by
        intro e he
        cases he with
        | head => exact ⟨{ id := 1, name := "Sabzi", price := 12000 }, rfl⟩
        | tail _ h => cases h)
  · exact (C6_cart_view_behavior sampleDB [(7, 2)]).2
      ⟨(7, 2), List.Mem.head _, rfl⟩

end AgroShop
